import Mathlib

/-!
Shallow embedding of the `omi_async_http_client` backends:
`src/omi_async_http_client/aiohttp_backend.py` (production backend) and
`src/test/mock/mock_test_client_backend.py` (mock/test backend).

Python dictionaries decoded from JSON bodies are modelled as association
lists of `JsonValue`s; exceptions raised by the code are modelled as
`Except` error values; the unguarded Python comparison `trace_code > 0`
(which raises `TypeError` on non-number operands) is modelled by a partial
comparison `pyGtZero` returning `Option Bool`.
-/

namespace OmiClient

/-- Python values as decoded from a JSON response body (`response.json()`).
Numbers are modelled as integers; strings are kept abstract (no escaping
subtleties are relevant to the claims). -/
inductive JsonValue where
  | null : JsonValue
  | bool (b : Bool) : JsonValue
  | num (n : Int) : JsonValue
  | str (s : String) : JsonValue
  | arr (elems : List JsonValue) : JsonValue
  | obj (entries : List (String × JsonValue)) : JsonValue

/-- A decoded JSON body: a Python `Dict[str, Any]`, modelled as an
association list (first binding of a key wins, as keys are unique in a
Python dict). -/
abbrev Dict := List (String × JsonValue)

/-- Python `d[k]` lookup (first matching key). -/
def dictGet (d : Dict) (k : String) : Option JsonValue :=
  match d with
  | [] => none
  | (k2, v) :: rest => if k2 = k then some v else dictGet rest k

/-- A Python mapping with string values, used for the raw `auth` mapping
(`username` / `password` keys). -/
abbrev StrDict := List (String × String)

/-- Lookup in a string-valued mapping (first matching key). -/
def sdictGet (d : StrDict) (k : String) : Option String :=
  match d with
  | [] => none
  | (k2, v) :: rest => if k2 = k then some v else sdictGet rest k

/-- HTTP headers, kept abstract as a string mapping. -/
abbrev Headers := List (String × String)

/-- Modelled from the spec: the constant `status_codes.OK` of the
status-code lookup service (`_status_code.py`, not under `src/`). -/
def OK : Nat := 200

/-- Modelled from the spec: `status_codes.CREATED`. -/
def CREATED : Nat := 201

/-- Modelled from the spec: `status_codes.ACCEPTED`. -/
def ACCEPTED : Nat := 202

/-- Modelled from the spec: `status_codes.BAD_REQUEST`. -/
def BAD_REQUEST : Nat := 400

/-- Modelled from the spec: `status_codes.UNAUTHORIZED`. -/
def UNAUTHORIZED : Nat := 401

/-- Modelled from the spec: `status_codes.FORBIDDEN`. -/
def FORBIDDEN : Nat := 403

/-- Modelled from the spec: `status_codes.NOT_FOUND`. -/
def NOT_FOUND : Nat := 404

/-- Modelled from the spec: `status_codes.REQUEST_TIMEOUT` (408). -/
def REQUEST_TIMEOUT : Nat := 408

/-- Modelled from the spec: `status_codes.CONFLICT`. -/
def CONFLICT : Nat := 409

/-- Modelled from the spec: `status_codes.UNPROCESSABLE_ENTITY` (422). -/
def UNPROCESSABLE_ENTITY : Nat := 422

/-- Modelled from the spec: `status_codes.SERVICE_UNAVAILABLE` (503). -/
def SERVICE_UNAVAILABLE : Nat := 503

/-- Modelled from the spec: `status_codes.is_server_error` of the
status-code lookup service — true exactly for 5xx statuses. -/
def is_server_error (status : Nat) : Bool :=
  decide (500 ≤ status) && decide (status ≤ 599)

/-- Modelled from the spec: `status_codes.is_client_error` — true exactly
for 4xx statuses. (In `request_http` the 4xx branch is a `pass`, so this
predicate does not influence the outcome; it is kept for fidelity.) -/
def is_client_error (status : Nat) : Bool :=
  decide (400 ≤ status) && decide (status ≤ 499)

/-- Modelled from the spec: `status_codes.get_reason_phrase`, the static
reason-phrase lookup of the status-code service (`_status_code.py`, not
under `src/`), given here for the codes the Response Filter uses. -/
def get_reason_phrase (status : Nat) : String :=
  if status = 400 then "Bad Request"
  else if status = 401 then "Unauthorized"
  else if status = 403 then "Forbidden"
  else if status = 404 then "Not Found"
  else if status = 409 then "Conflict"
  else if status = 422 then "Unprocessable Entity"
  else ""

/-- The `detail` payload carried by an `HTTPException`: either a string
(a reason phrase or a stringified transport error) or a raw decoded body. -/
inductive Detail where
  | str (s : String)
  | dict (d : Dict)

/-- Modelled from the spec: the `HTTPException` error value of
`_exceptions.py` (not under `src/`): `status_code`, optional `detail`,
optional positive business `trace_code` (the value taken from the body's
`"code"` field). -/
structure HTTPException where
  status_code : Nat
  detail : Option Detail := none
  trace_code : Option JsonValue := none

/-- The normalized success value `ClientBackendResponse` of
`async_http_client.py` (described in the spec's data model). -/
structure ClientBackendResponse where
  status_code : Nat
  response : Dict

/-- Python semantics of the comparison `v > 0` appearing unguarded in the
Response Filter: defined (`some`) for numbers and booleans (`True > 0` is
`True`, `False > 0` is `False`), undefined (`none`, a `TypeError`) for
`None`, strings, lists and dicts. -/
def pyGtZero : JsonValue → Option Bool
  | .num n => some (decide (0 < n))
  | .bool b => some b
  | _ => none

/-- Failure of the Response Filter: either a raised `HTTPException`, or an
untyped Python `TypeError` escaping from the unguarded `trace_code > 0`
comparison. -/
inductive FilterFail where
  | http (e : HTTPException)
  | typeError

/-- `AioHttpClientBackend.filter_received_response`
(`aiohttp_backend.py`, lines 165-203): the Response Filter of the
production backend, as a function of `(status, response_dict)`. -/
def filter_received_response (status : Nat) (response_dict : Dict) :
    Except FilterFail Unit :=
  if status ∈ [BAD_REQUEST, UNAUTHORIZED, FORBIDDEN, NOT_FOUND, CONFLICT] then
    let trace_code := (dictGet response_dict "code").getD (JsonValue.num 0)
    match pyGtZero trace_code with
    | none => Except.error FilterFail.typeError
    | some true =>
        Except.error (FilterFail.http
          { status_code := status
            trace_code := some trace_code
            detail := some (Detail.str (get_reason_phrase status)) })
    | some false =>
        Except.error (FilterFail.http
          { status_code := status
            detail := some (Detail.str (get_reason_phrase status)) })
  else if status = UNPROCESSABLE_ENTITY then
    Except.error (FilterFail.http
      { status_code := status, detail := some (Detail.dict response_dict) })
  else if status ∈ [OK, CREATED, ACCEPTED] then
    Except.ok ()
  else
    Except.ok ()

/-- `MockTestClientBackend.mock_filter_received_response`
(`mock_test_client_backend.py`, lines 110-148): the Response Filter of
the mock backend; its Python body is textually identical to the
production one. -/
def mock_filter_received_response (status : Nat) (response_dict : Dict) :
    Except FilterFail Unit :=
  if status ∈ [BAD_REQUEST, UNAUTHORIZED, FORBIDDEN, NOT_FOUND, CONFLICT] then
    let trace_code := (dictGet response_dict "code").getD (JsonValue.num 0)
    match pyGtZero trace_code with
    | none => Except.error FilterFail.typeError
    | some true =>
        Except.error (FilterFail.http
          { status_code := status
            trace_code := some trace_code
            detail := some (Detail.str (get_reason_phrase status)) })
    | some false =>
        Except.error (FilterFail.http
          { status_code := status
            detail := some (Detail.str (get_reason_phrase status)) })
  else if status = UNPROCESSABLE_ENTITY then
    Except.error (FilterFail.http
      { status_code := status, detail := some (Detail.dict response_dict) })
  else if status ∈ [OK, CREATED, ACCEPTED] then
    Except.ok ()
  else
    Except.ok ()

/-- Result of the body-decode step (`await response.json()` /
`response.json()`): either a decoded dict or a codec failure (the decode
raising). -/
inductive BodyDecode where
  | ok (d : Dict)
  | fail

/-- What the transport reports back for one request: a status line with a
(possibly failing) body decode, or a raised transport error. A
`serverTimeout` is aiohttp's `ServerTimeoutError` (also a `ClientError`,
but matched by the first `except` clause); `clientError` is any other
`aiohttp.ClientError`. -/
inductive TransportResult where
  | ok (status : Nat) (body : BodyDecode)
  | serverTimeout (msg : String)
  | clientError (msg : String)

/-- Outcome of one pass through a backend's request path:
a normalized response, a raised `HTTPException`, a propagated codec
failure, or a propagated `TypeError` from the filter. -/
inductive RequestOutcome where
  | resp (r : ClientBackendResponse)
  | exc (e : HTTPException)
  | decodeFail
  | typeError

/-- `AioHttpClientBackend.request_http` (`aiohttp_backend.py`, lines
13-52), as a function of the transport's result: 5xx short-circuits with
`HTTPException(status_code=status)` before the body decode; the 4xx
branch is a `pass`; otherwise the body is decoded and fed to the Response
Filter; `ServerTimeoutError` maps to 408 and any other `ClientError` to
503, each with the stringified error as detail (an `HTTPException` raised
inside the `try` is not a `ClientError` and propagates unchanged). -/
def request_http (t : TransportResult) : RequestOutcome :=
  match t with
  | .serverTimeout err =>
      .exc { status_code := REQUEST_TIMEOUT, detail := some (Detail.str err) }
  | .clientError err =>
      .exc { status_code := SERVICE_UNAVAILABLE, detail := some (Detail.str err) }
  | .ok status body =>
      if is_server_error status then
        .exc { status_code := status }
      else
        match body with
        | .fail => .decodeFail
        | .ok response_dict =>
            match filter_received_response status response_dict with
            | .error (.http e) => .exc e
            | .error .typeError => .typeError
            | .ok _ => .resp { status_code := status, response := response_dict }

/-- `MockTestClientBackend.mock_prepare_response`
(`mock_test_client_backend.py`, lines 92-108), as a function of the test
client's reported status and body decode; structurally identical to the
post-transport part of `request_http` but with no transport-error
handler. -/
def mock_prepare_response (status : Nat) (body : BodyDecode) : RequestOutcome :=
  if is_server_error status then
    .exc { status_code := status }
  else
    match body with
    | .fail => .decodeFail
    | .ok response_dict =>
        match mock_filter_received_response status response_dict with
        | .error (.http e) => .exc e
        | .error .typeError => .typeError
        | .ok _ => .resp { status_code := status, response := response_dict }

/-- Serialization of a Python string into a JSON string literal, with the
two escapes the claims could meet; escaping of control characters is
elided. -/
def jsonEscape (s : String) : String :=
  String.join (s.toList.map fun c =>
    if c = '\\' then "\\\\"
    else if c = '"' then "\\\""
    else String.singleton c)

mutual

/-- Python `json.dumps` on a decoded value, with the default separators
of the standard library codec. -/
def jsonDumps : JsonValue → String
  | .null => "null"
  | .bool true => "true"
  | .bool false => "false"
  | .num n => toString n
  | .str s => "\"" ++ jsonEscape s ++ "\""
  | .arr elems => "[" ++ jsonDumpsElems elems ++ "]"
  | .obj entries => "\x7b" ++ jsonDumpsEntries entries ++ "\x7d"

/-- Serialization of the elements of a JSON array, comma-separated. -/
def jsonDumpsElems : List JsonValue → String
  | [] => ""
  | [v] => jsonDumps v
  | v :: rest => jsonDumps v ++ ", " ++ jsonDumpsElems rest

/-- Serialization of the entries of a JSON object, comma-separated. -/
def jsonDumpsEntries : List (String × JsonValue) → String
  | [] => ""
  | [(k, v)] => "\"" ++ jsonEscape k ++ "\": " ++ jsonDumps v
  | (k, v) :: rest =>
      "\"" ++ jsonEscape k ++ "\": " ++ jsonDumps v ++ ", " ++ jsonDumpsEntries rest

end

/-- Python `json.dumps(data)` where `data` is a decoded dict or `None`
(`json.dumps(None)` is the string `"null"`). -/
def json_dumps : Option Dict → String
  | none => "null"
  | some d => jsonDumps (JsonValue.obj d)

/-- An `aiohttp.BasicAuth` credential object (login and password). -/
structure BasicAuth where
  login : String
  password : String
deriving DecidableEq

/-- The `auth` argument of the verb methods: `Union[BasicAuth, Dict]` — a
pre-built credential object or a raw mapping. -/
inductive AuthArg where
  | basic (b : BasicAuth)
  | dict (d : StrDict)

/-- The credential-normalization block duplicated verbatim in each verb
method of `AioHttpClientBackend` (`aiohttp_backend.py`, e.g. lines
86-91): a raw mapping yields `BasicAuth(auth.get("username", ""),
auth.get("password", ""))`, a pre-built `BasicAuth` is passed through. -/
def auth_method_of : AuthArg → BasicAuth
  | .dict d =>
      { login := (sdictGet d "username").getD ""
        password := (sdictGet d "password").getD "" }
  | .basic b => b

/-- The request a backend hands to its transport: method, url, optional
serialized body string (`none` when no body argument is passed at all),
headers, the credential object forwarded (`none` when the backend passes
`auth=None`), and the timeout. -/
structure TransportCall where
  method : String
  url : String
  data : Option String
  headers : Headers
  auth : Option BasicAuth
  timeout : Nat
deriving DecidableEq

/-- The transport call issued by `AioHttpClientBackend.request_http`
(`aiohttp_backend.py`, lines 23-29): `aiohttp.request` receives
`data=json.dumps(data)` — the body is always the serialization of
whatever `data` was passed, including `None`. -/
def request_call (method : String) (url : String) (data : Option Dict)
    (headers : Headers) (auth : BasicAuth) (timeout : Nat) : TransportCall :=
  { method := method
    url := url
    data := some (json_dumps data)
    headers := headers
    auth := some auth
    timeout := timeout }

/-- `AioHttpClientBackend.head` (`aiohttp_backend.py`, lines 61-79): no
`data` parameter; delegates to `request_http` with `data=None` and the
normalized credentials. -/
def AioHttpClientBackend.head (url : String) (header : Headers)
    (auth : AuthArg) (timeout : Nat) : TransportCall :=
  request_call "head" url none header (auth_method_of auth) timeout

/-- `AioHttpClientBackend.get` (`aiohttp_backend.py`, lines 81-100):
accepts `data` but delegates to `request_http` with `data=None`. -/
def AioHttpClientBackend.get (url : String) (data : Option Dict)
    (header : Headers) (auth : AuthArg) (timeout : Nat) : TransportCall :=
  request_call "get" url none header (auth_method_of auth) timeout

/-- `AioHttpClientBackend.put` (`aiohttp_backend.py`, lines 102-121). -/
def AioHttpClientBackend.put (url : String) (data : Option Dict)
    (header : Headers) (auth : AuthArg) (timeout : Nat) : TransportCall :=
  request_call "put" url data header (auth_method_of auth) timeout

/-- `AioHttpClientBackend.post` (`aiohttp_backend.py`, lines 123-142). -/
def AioHttpClientBackend.post (url : String) (data : Option Dict)
    (header : Headers) (auth : AuthArg) (timeout : Nat) : TransportCall :=
  request_call "post" url data header (auth_method_of auth) timeout

/-- `AioHttpClientBackend.delete` (`aiohttp_backend.py`, lines 144-163). -/
def AioHttpClientBackend.delete (url : String) (data : Option Dict)
    (header : Headers) (auth : AuthArg) (timeout : Nat) : TransportCall :=
  request_call "delete" url data header (auth_method_of auth) timeout

/-- `MockTestClientBackend.head` (`mock_test_client_backend.py`, lines
23-34): calls `test_client.head(str(url), headers=header, auth=None,
timeout=timeout)` — no `data` keyword at all, and `auth` discarded. -/
def MockTestClientBackend.head (url : String) (header : Headers)
    (auth : AuthArg) (timeout : Nat) : TransportCall :=
  { method := "head"
    url := url
    data := none
    headers := header
    auth := none
    timeout := timeout }

/-- `MockTestClientBackend.get` (`mock_test_client_backend.py`, lines
36-48): calls `test_client.get(str(url), data=json.dumps(data),
headers=header, auth=None, timeout=timeout)` — the caller's `data` is
serialized and forwarded, and `auth` discarded. -/
def MockTestClientBackend.get (url : String) (data : Option Dict)
    (header : Headers) (auth : AuthArg) (timeout : Nat) : TransportCall :=
  { method := "get"
    url := url
    data := some (json_dumps data)
    headers := header
    auth := none
    timeout := timeout }

/-- `MockTestClientBackend.put` (`mock_test_client_backend.py`, lines
50-62). -/
def MockTestClientBackend.put (url : String) (data : Option Dict)
    (header : Headers) (auth : AuthArg) (timeout : Nat) : TransportCall :=
  { method := "put"
    url := url
    data := some (json_dumps data)
    headers := header
    auth := none
    timeout := timeout }

/-- `MockTestClientBackend.post` (`mock_test_client_backend.py`, lines
64-76). -/
def MockTestClientBackend.post (url : String) (data : Option Dict)
    (header : Headers) (auth : AuthArg) (timeout : Nat) : TransportCall :=
  { method := "post"
    url := url
    data := some (json_dumps data)
    headers := header
    auth := none
    timeout := timeout }

/-- `MockTestClientBackend.delete` (`mock_test_client_backend.py`, lines
78-90). -/
def MockTestClientBackend.delete (url : String) (data : Option Dict)
    (header : Headers) (auth : AuthArg) (timeout : Nat) : TransportCall :=
  { method := "delete"
    url := url
    data := some (json_dumps data)
    headers := header
    auth := none
    timeout := timeout }

/-- Outcome of a `send` call: the raised `NotImplementedError`, or (never
produced) a normalized response. -/
inductive SendResult where
  | notImplementedError
  | value (r : ClientBackendResponse)

/-- `AioHttpClientBackend.send` (`aiohttp_backend.py`, lines 54-59):
`raise NotImplementedError` unconditionally; no transport call occurs. -/
def AioHttpClientBackend.send (url : String) (data : Option Dict)
    (header : Headers) (auth : AuthArg) (timeout : Nat) : SendResult :=
  SendResult.notImplementedError

/-- `MockTestClientBackend.send` (`mock_test_client_backend.py`, lines
20-21): `raise NotImplementedError` unconditionally. -/
def MockTestClientBackend.send (url : String) (data : Option Dict)
    (header : Headers) (auth : AuthArg) (timeout : Nat) : SendResult :=
  SendResult.notImplementedError

/-! Theorems settling the claims. -/

/-- C1 counterexample: the claim quantifies over every body mapping, but
with body `{"code": "x"}` and status 400 the unguarded comparison
`trace_code > 0` raises a `TypeError`, so no `HTTPException` is raised at
all — the filter's outcome is the `TypeError`, not an `HTTPException`. -/
theorem filter_400_string_code_type_error :
    filter_received_response 400 [("code", JsonValue.str "x")] =
      Except.error FilterFail.typeError := rfl

/-- C1 (amended): for status in `{400, 401, 403, 404, 409}` and any body
whose `"code"` value (defaulting to `0`) is order-comparable with `0`,
the filter raises `HTTPException` with `status_code` the input status and
`detail` the reason phrase; it carries `trace_code` equal to that value
exactly when the value compares greater than `0`, and no `trace_code`
otherwise (in particular when the key is absent or maps to `0`). -/
theorem filter_4xx_trace_code (status : Nat) (d : Dict) (b : Bool)
    (hs : status ∈ [BAD_REQUEST, UNAUTHORIZED, FORBIDDEN, NOT_FOUND, CONFLICT])
    (hc : pyGtZero ((dictGet d "code").getD (JsonValue.num 0)) = some b) :
    filter_received_response status d = Except.error (FilterFail.http
      { status_code := status
        detail := some (Detail.str (get_reason_phrase status))
        trace_code :=
          if b then some ((dictGet d "code").getD (JsonValue.num 0)) else none }) := by
  cases b <;> simp [filter_received_response, hs, hc]

/-- C1 witness: the amended theorem applied at status 404 and body
`{"code": 7}`. -/
theorem filter_4xx_trace_code_witness :
    filter_received_response 404 [("code", JsonValue.num 7)] =
      Except.error (FilterFail.http
        { status_code := 404
          detail := some (Detail.str "Not Found")
          trace_code := some (JsonValue.num 7) }) :=
  filter_4xx_trace_code 404 [("code", JsonValue.num 7)] true (by decide) rfl

/-- C2: for status 422 and every body, the filter raises `HTTPException`
with `status_code` 422 and `detail` exactly the raw decoded body,
unchanged. -/
theorem filter_422_detail_is_body (d : Dict) :
    filter_received_response UNPROCESSABLE_ENTITY d =
      Except.error (FilterFail.http
        { status_code := 422, detail := some (Detail.dict d) }) := rfl

/-- C3 counterexample: status 500 is outside
`{400, 401, 403, 404, 409, 422}`, and the filter indeed raises nothing,
but the request path does not return a `ClientBackendResponse` there: it
short-circuits on the 5xx check and raises `HTTPException(500)` before
the filter is reached. -/
theorem request_path_500_not_passthrough :
    filter_received_response 500 [] = Except.ok () ∧
    request_http (TransportResult.ok 500 (BodyDecode.ok [])) =
      RequestOutcome.exc { status_code := 500 } := ⟨rfl, rfl⟩

/-- C3 (amended): for every status outside
`{400, 401, 403, 404, 409, 422}` and every body the filter raises no
exception; and when such a status is additionally not a server error
(5xx), the request path returns a `ClientBackendResponse` whose
`status_code` is the input status and whose `response` is the decoded
body verbatim. -/
theorem filter_passthrough (status : Nat) (d : Dict)
    (hs : status ∉ [BAD_REQUEST, UNAUTHORIZED, FORBIDDEN, NOT_FOUND, CONFLICT])
    (h422 : status ≠ UNPROCESSABLE_ENTITY) :
    filter_received_response status d = Except.ok () ∧
    (is_server_error status = false →
      request_http (TransportResult.ok status (BodyDecode.ok d)) =
        RequestOutcome.resp { status_code := status, response := d }) := by
  have hf : filter_received_response status d = Except.ok () := by
    unfold filter_received_response
    rw [if_neg hs, if_neg h422]
    split <;> rfl
  exact ⟨hf, fun hserver => by simp [request_http, hserver, hf]⟩

/-- C3 witness: the amended theorem applied at status 418 with body
`{"x": 1}`. -/
theorem filter_passthrough_witness :
    filter_received_response 418 [("x", JsonValue.num 1)] = Except.ok () ∧
    request_http (TransportResult.ok 418 (BodyDecode.ok [("x", JsonValue.num 1)])) =
      RequestOutcome.resp { status_code := 418, response := [("x", JsonValue.num 1)] } :=
  ⟨(filter_passthrough 418 [("x", JsonValue.num 1)] (by decide) (by decide)).1,
   (filter_passthrough 418 [("x", JsonValue.num 1)] (by decide) (by decide)).2 rfl⟩

/-- C4: for every pair `(status, body)` the mock backend's filter and the
production backend's filter produce identical outcomes — both pass
through, or both fail with equal `status_code`, `trace_code` and
`detail` (equality of the whole outcome). -/
theorem mock_filter_equals_production_filter (status : Nat) (d : Dict) :
    mock_filter_received_response status d = filter_received_response status d := rfl

/-- C5: in both backends' request paths a 5xx status raises
`HTTPException` with that status and no detail, whatever the body-decode
step would have produced — in particular a failing decode never
surfaces, because the short-circuit happens before the decode and the
filter. -/
theorem server_error_short_circuit (status : Nat) (body : BodyDecode)
    (h : is_server_error status = true) :
    request_http (TransportResult.ok status body) =
      RequestOutcome.exc { status_code := status } ∧
    mock_prepare_response status body =
      RequestOutcome.exc { status_code := status } := by
  constructor <;> simp [request_http, mock_prepare_response, h]

/-- C5 witness: the theorem applied at status 500 with a failing body
decode. -/
theorem server_error_short_circuit_witness :
    request_http (TransportResult.ok 500 BodyDecode.fail) =
      RequestOutcome.exc { status_code := 500 } ∧
    mock_prepare_response 500 BodyDecode.fail =
      RequestOutcome.exc { status_code := 500 } :=
  server_error_short_circuit 500 BodyDecode.fail rfl

/-- C6: a transport-level timeout (`ServerTimeoutError`) maps to
`HTTPException(408)` and any other transport-level error
(`aiohttp.ClientError`) to `HTTPException(503)`, in both cases with
`detail` the stringified underlying error. -/
theorem transport_error_mapping (msg : String) :
    request_http (TransportResult.serverTimeout msg) =
      RequestOutcome.exc
        { status_code := REQUEST_TIMEOUT, detail := some (Detail.str msg) } ∧
    request_http (TransportResult.clientError msg) =
      RequestOutcome.exc
        { status_code := SERVICE_UNAVAILABLE, detail := some (Detail.str msg) } :=
  ⟨rfl, rfl⟩

/-- C7 counterexample: on the mock backend, `get` forwards
`data=json.dumps(data)` to the test client — two calls differing only in
the caller's `data` argument forward different bodies, so the body is
derived from `data`. -/
theorem mock_get_forwards_data :
    (MockTestClientBackend.get "u" (some [("x", JsonValue.num 1)]) []
        (AuthArg.basic { login := "", password := "" }) 1).data ≠
    (MockTestClientBackend.get "u" none []
        (AuthArg.basic { login := "", password := "" }) 1).data := by decide

/-- C7 (amended): the production backend's `get` issues a transport call
independent of the caller's `data` (the forwarded body is always the
serialization of `None`), its `head` takes no body argument and forwards
the serialization of `None` too, and the mock backend's `head` forwards
no body at all; but the mock backend's `get` forwards the serialization
of the caller's `data`. -/
theorem head_get_body_handling (url : String) (d1 d2 : Option Dict)
    (h : Headers) (a : AuthArg) (t : Nat) :
    AioHttpClientBackend.get url d1 h a t = AioHttpClientBackend.get url d2 h a t ∧
    (AioHttpClientBackend.get url d1 h a t).data = some (json_dumps none) ∧
    (AioHttpClientBackend.head url h a t).data = some (json_dumps none) ∧
    (MockTestClientBackend.head url h a t).data = none ∧
    (MockTestClientBackend.get url d1 h a t).data = some (json_dumps d1) :=
  ⟨rfl, rfl, rfl, rfl, rfl⟩

/-- C8 counterexample: the mock backend's `get`, given a raw credential
mapping, forwards `auth=None` to the test client — no credential object
is constructed and delegated, contradicting the claimed normalization on
every backend. -/
theorem mock_get_discards_auth :
    (MockTestClientBackend.get "u" none []
        (AuthArg.dict [("username", "alice"), ("password", "pw")]) 1).auth = none ∧
    (MockTestClientBackend.get "u" none []
        (AuthArg.dict [("username", "alice"), ("password", "pw")]) 1).auth ≠
      some { login := "alice", password := "pw" } := by
  exact ⟨rfl, by decide⟩

/-- C8 (amended): in the production backend every verb method normalizes
`auth` before delegating — a raw mapping yields a credential object built
from its `username`/`password` keys with empty-string defaults, and a
pre-built credential object passes through unchanged; the mock backend
instead discards `auth` and always forwards `None`. -/
theorem auth_normalization (url : String) (d : Option Dict) (h : Headers)
    (ad : StrDict) (b : BasicAuth) (a : AuthArg) (t : Nat) :
    auth_method_of (AuthArg.dict ad) =
      { login := (sdictGet ad "username").getD ""
        password := (sdictGet ad "password").getD "" } ∧
    auth_method_of (AuthArg.basic b) = b ∧
    (AioHttpClientBackend.head url h a t).auth = some (auth_method_of a) ∧
    (AioHttpClientBackend.get url d h a t).auth = some (auth_method_of a) ∧
    (AioHttpClientBackend.put url d h a t).auth = some (auth_method_of a) ∧
    (AioHttpClientBackend.post url d h a t).auth = some (auth_method_of a) ∧
    (AioHttpClientBackend.delete url d h a t).auth = some (auth_method_of a) ∧
    (MockTestClientBackend.head url h a t).auth = none ∧
    (MockTestClientBackend.get url d h a t).auth = none ∧
    (MockTestClientBackend.put url d h a t).auth = none ∧
    (MockTestClientBackend.post url d h a t).auth = none ∧
    (MockTestClientBackend.delete url d h a t).auth = none :=
  ⟨rfl, rfl, rfl, rfl, rfl, rfl, rfl, rfl, rfl, rfl, rfl, rfl⟩

/-- C9: `send` on both backends, for every combination of arguments,
fails with the not-implemented signal and never yields a
`ClientBackendResponse` (so no transport call is performed). -/
theorem send_not_implemented (url : String) (d : Option Dict) (h : Headers)
    (a : AuthArg) (t : Nat) :
    AioHttpClientBackend.send url d h a t = SendResult.notImplementedError ∧
    MockTestClientBackend.send url d h a t = SendResult.notImplementedError ∧
    (∀ r, AioHttpClientBackend.send url d h a t ≠ SendResult.value r) ∧
    (∀ r, MockTestClientBackend.send url d h a t ≠ SendResult.value r) :=
  ⟨rfl, rfl, fun r hr => SendResult.noConfusion hr, fun r hr => SendResult.noConfusion hr⟩

/-- C10: for status in `{400, 401, 403, 404, 409}` and a body whose
`"code"` value is not order-comparable with `0` (a string, `None`, a
list or a dict), both backends' filters fail with the `TypeError` from
the unguarded comparison `trace_code > 0`, not with an `HTTPException`. -/
theorem filter_incomparable_code_type_error (status : Nat) (d : Dict)
    (hs : status ∈ [BAD_REQUEST, UNAUTHORIZED, FORBIDDEN, NOT_FOUND, CONFLICT])
    (hc : pyGtZero ((dictGet d "code").getD (JsonValue.num 0)) = none) :
    filter_received_response status d = Except.error FilterFail.typeError ∧
    mock_filter_received_response status d = Except.error FilterFail.typeError := by
  constructor <;> simp [filter_received_response, mock_filter_received_response, hs, hc]

/-- C10 witness: the theorem applied at status 401 and body
`{"code": null}`. -/
theorem filter_incomparable_code_type_error_witness :
    filter_received_response 401 [("code", JsonValue.null)] =
      Except.error FilterFail.typeError ∧
    mock_filter_received_response 401 [("code", JsonValue.null)] =
      Except.error FilterFail.typeError :=
  filter_incomparable_code_type_error 401 [("code", JsonValue.null)] (by decide) rfl

end OmiClient
